import Mathlib

/-!
Shallow embedding of `src/main.py` (Better-Proposals scraper) and proofs
about the claims of the specification.

Strings are modelled as Lean `String`s (lists of characters); the Python
string operations used by the source (`in`, `str.replace`, `str.strip`,
and `re.search` for the five fixed patterns) are embedded below with their
Python semantics.  External effects (Selenium driver, OpenAI transport,
pandas sheet reads) are modelled as explicit oracle parameters, so each
function of the source becomes a pure Lean function of its inputs and of
the outcomes of its external calls.
-/

namespace BetterProposals

/-! ### Python string primitives -/

/-- Characters stripped by Python `str.strip()` with no argument
(ASCII whitespace; the source never feeds non-ASCII whitespace ends). -/
def isPySpace (c : Char) : Bool :=
  c = ' ' || c = '\t' || c = '\n' || c = '\r' || c = '\x0b' || c = '\x0c'

/-- Python `str.strip()` on a character list. -/
def pyStripList (l : List Char) : List Char :=
  ((l.dropWhile isPySpace).reverse.dropWhile isPySpace).reverse

/-- Python `str.strip()`. -/
def pyStrip (s : String) : String := ⟨pyStripList s.data⟩

/-- Index of the first occurrence of `pat` in a list (offset from the head),
`none` when `pat` does not occur. -/
def findSuffix (pat : List Char) : List Char → Option Nat
  | [] => if pat.isEmpty then some 0 else none
  | c :: t =>
    if pat.isPrefixOf (c :: t) then some 0 else (findSuffix pat t).map (· + 1)

/-- Python `pat in s` for strings. -/
def pyContains (s pat : String) : Bool := (findSuffix pat.data s.data).isSome

/-- Worker for `pyReplace`; the fuel starts at the list length, which
  suffices because every step consumes at least one character. -/
def replaceAux (pat rep : List Char) : Nat → List Char → List Char
  | 0, l => l
  | _, [] => []
  | fuel + 1, c :: t =>
    if pat.isPrefixOf (c :: t) then
      rep ++ replaceAux pat rep fuel ((c :: t).drop pat.length)
    else
      c :: replaceAux pat rep fuel t

/-- Python `s.replace(pat, rep)`: replaces every non-overlapping occurrence,
left to right.  (The empty-pattern case behaves differently in Python but the
source only ever replaces the non-empty literal `"Sent by"`.) -/
def pyReplace (s pat rep : String) : String :=
  if pat.data.isEmpty then s else ⟨replaceAux pat.data rep.data s.data.length s.data⟩

/-! ### The certificate regex

`re.search(r'<LABEL>.*?<div class="certificate-value">(.*?)</div>', s, re.DOTALL)`
for a literal label.  With `re.DOTALL`, a pattern `L.*?M(.*?)N` built from
literals matches iff some occurrence of `L` is followed (at or after its end)
by an occurrence of `M` followed by an occurrence of `N`; lazily the engine
settles on the first such `L`, the first `M` at or after it, and the first
`N` at or after that `M`, capturing the text between `M`'s end and `N`'s
start.  (If any occurrence of `L` admits a completion then the first one
does, because `.*?` may span later occurrences; likewise for `M`.) -/

def searchLMN (s L M N : String) : Option String :=
  match findSuffix L.data s.data with
  | none => none
  | some i =>
    let afterL := s.data.drop (i + L.data.length)
    match findSuffix M.data afterL with
    | none => none
    | some j =>
      let afterM := afterL.drop (j + M.data.length)
      match findSuffix N.data afterM with
      | none => none
      | some k => some ⟨afterM.take k⟩

/-! ### The timeline regex

`re.search(r'<div class="timeline-title[^>]*">Sent by\s+(.*?)</div>', s, re.DOTALL)`.
The scan tries every start position left to right; at a given start the
engine matches the opening literal, lets the greedy `[^>]*` consume leading
non-`'>'` characters (longest first, backtracking downwards), matches the
literal `">Sent by`, lets the greedy `\s+` consume whitespace (longest
first, at least one), and captures lazily up to the first `</div>`. -/

def timelineTitleOpen : List Char := "<div class=\"timeline-title".data
def timelineTitleClose : List Char := "\">Sent by".data
def closeDiv : List Char := "</div>".data

def countLeading (p : Char → Bool) : List Char → Nat
  | [] => 0
  | c :: t => if p c then countLeading p t + 1 else 0

/-- Greedy `\s+(.*?)</div>` after the `">Sent by` literal: try `m + 1`
whitespace characters first (`m + 1` starts at the length of the leading
whitespace run), backtracking down to one. -/
def trySpaces (u : List Char) : Nat → Option (List Char)
  | 0 => none
  | m + 1 =>
    let v := u.drop (m + 1)
    match findSuffix closeDiv v with
    | some k => some (v.take k)
    | none => trySpaces u m

/-- Attempt the part of the pattern after `[^>]*` has consumed exactly `n`
characters of `rest`. -/
def tryGapAt (rest : List Char) (n : Nat) : Option (List Char) :=
  if timelineTitleClose.isPrefixOf (rest.drop n) then
    let u := (rest.drop n).drop timelineTitleClose.length
    trySpaces u (countLeading isPySpace u)
  else none

/-- Greedy `[^>]*`: try the longest admissible gap first and backtrack to 0. -/
def tryGap (rest : List Char) : Nat → Option (List Char)
  | 0 => tryGapAt rest 0
  | n + 1 =>
    match tryGapAt rest (n + 1) with
    | some r => some r
    | none => tryGap rest n

/-- Try a full match of the timeline pattern anchored at the head of `l`. -/
def timelineMatchHere (l : List Char) : Option (List Char) :=
  if timelineTitleOpen.isPrefixOf l then
    let rest := l.drop timelineTitleOpen.length
    tryGap rest (countLeading (· != '>') rest)
  else none

/-- Leftmost match: scan start positions in increasing order. -/
def timelineSearch : List Char → Option (List Char)
  | [] => none
  | c :: t =>
    match timelineMatchHere (c :: t) with
    | some r => some r
    | none => timelineSearch t

/-- Captured group of the timeline "Sent by" pattern, if it matches. -/
def timelineSentBy (timeline : String) : Option String :=
  (timelineSearch timeline.data).map (fun l => ⟨l⟩)

/-! ### Data model

`extract_certificate_info` returns the dictionary
`{"certificate_html": …, "timeline_html": …, "sent_by_blocks": […]}` where
each block is a dictionary with keys `"html"` and `"text"` (both always
present when the source builds a block).  The model-tier JSON response is a
dictionary of which the program only ever reads the four documented keys
with `.get`/`[]`, so it is modelled by its projection to those four keys,
each optionally present. -/

structure Block where
  html : String
  text : String
deriving DecidableEq

structure Raw where
  certificate_html : String
  timeline_html : String
  sent_by_blocks : List Block
deriving DecidableEq

/-- The four-key result dictionary built by `manual_extract` (all keys
always present). -/
structure Fields where
  signed_by : String
  signed_date : String
  ip_address : String
  sent_by : String
deriving DecidableEq

/-- A JSON-object result viewed at the four keys the program reads. -/
structure PyDict where
  signedBy? : Option String
  signedDate? : Option String
  ipAddress? : Option String
  sentBy? : Option String
deriving DecidableEq

def Fields.toDict (f : Fields) : PyDict :=
  ⟨some f.signed_by, some f.signed_date, some f.ip_address, some f.sent_by⟩

/-- Python `d.get(key, default)` on one of the modelled keys. -/
def pyGet (o : Option String) (d : String) : String := o.getD d

/-! ### `manual_extract` (src/main.py lines 397-462)

The Python function mutates a result dictionary in five sequential steps:
three certificate-field searches, the block-based "Sent by" recovery, and
the timeline-regex "Sent by" recovery.  Each step is embedded as a function
`Fields → Fields`; each bare `try/except: pass` wrapper in the source can
only swallow exceptions of `re.search`, which does not raise on string
input, so the steps are total here. -/

def certValueDiv : String := "<div class=\"certificate-value\">"
def divClose : String := "</div>"

/-- One certificate-field derivation: the `"label" in certificate_html`
guard followed by the `re.search` of
`label.*?<div class="certificate-value">(.*?)</div>` (DOTALL). -/
def certField (html label : String) : Option String :=
  if pyContains html label then searchLMN html label certValueDiv divClose
  else none

/-- Lines 412-420: `result["Signed by"] = …`. -/
def step1 (raw : Raw) (r : Fields) : Fields :=
  match certField raw.certificate_html "Accepted and Signed by" with
  | some v => { r with signed_by := pyStrip v }
  | none => r

/-- Lines 423-431: `result["Signed date"] = …`. -/
def step2 (raw : Raw) (r : Fields) : Fields :=
  match certField raw.certificate_html "Accepted and Signed on" with
  | some v => { r with signed_date := pyStrip v }
  | none => r

/-- Lines 434-442: `result["IP address"] = …`. -/
def step3 (raw : Raw) (r : Fields) : Fields :=
  match certField raw.certificate_html "IP Address from signature location" with
  | some v => { r with ip_address := pyStrip v }
  | none => r

/-- Lines 444-449: recover `"Sent by"` from the first matching block when the
current value is the sentinel (the loop with `break` is `List.find?`). -/
def step4 (raw : Raw) (r : Fields) : Fields :=
  if r.sent_by = "Not found" ∧ raw.sent_by_blocks ≠ [] then
    match raw.sent_by_blocks.find? (fun b => pyContains b.text "Sent by") with
    | some b => { r with sent_by := pyStrip (pyReplace b.text "Sent by" "") }
    | none => r
  else r

/-- Lines 451-460: last-resort timeline-regex recovery of `"Sent by"`. -/
def step5 (raw : Raw) (r : Fields) : Fields :=
  if r.sent_by = "Not found" then
    match timelineSentBy raw.timeline_html with
    | some v => { r with sent_by := pyStrip v }
    | none => r
  else r

/-- `manual_extract(raw_data, sent_by)`; the Python default for `sent_by`
is `"Not found"`, passed explicitly here. -/
def manual_extract (raw : Raw) (sent_by : String) : Fields :=
  step5 raw (step4 raw (step3 raw (step2 raw (step1 raw
    ⟨"Not found", "Not found", "Not found", sent_by⟩))))

/-! ### `parse_with_openai` (src/main.py lines 313-395)

The network call and JSON decode are modelled by a `ModelOutcome` oracle:
the transport raising (`.apiError`, inner `except Exception`), the response
failing `json.loads` (`.badJson`, `except json.JSONDecodeError`), or a
parsed JSON object (`.parsed`).  The global `openai.api_key` truthiness is
the `apiKey` parameter.  The second component of the result records whether
`openai.chat.completions.create` was invoked.  (The outer
`except Exception` of the Python function is unreachable for a well-typed
`raw_data` dictionary: everything before the inner `try` is pure string
formatting over the present keys.) -/

inductive ModelOutcome
| apiError
| badJson
| parsed (d : PyDict)
deriving DecidableEq

/-- Lines 319-325: direct derivation of `sent_by` from the blocks. -/
def deriveSentBy (blocks : List Block) : String :=
  match blocks.find? (fun b => pyContains b.text "Sent by") with
  | some b => pyStrip (pyReplace b.text "Sent by" "")
  | none => "Not found"

def parse_with_openai (apiKey : Bool) (model : ModelOutcome) (raw : Raw) :
    PyDict × Bool :=
  let sent_by := deriveSentBy raw.sent_by_blocks
  if !apiKey then ((manual_extract raw sent_by).toDict, false)
  else
    match model with
    | .apiError => ((manual_extract raw sent_by).toDict, true)
    | .badJson => ((manual_extract raw sent_by).toDict, true)
    | .parsed d => ({ d with sentBy? := some sent_by }, true)

/-! ### `check_authentication_status` (src/main.py lines 71-113)

A pure function of the current URL and two DOM probes: whether
`find_element(By.ID, "form_login")` succeeds and whether
`find_elements(By.CLASS_NAME, "user-menu")` is non-empty.  A probe that
raises inside the source's bare `try/except: pass` behaves like an absent
element (the code falls through to the default `return False`), so the two
booleans cover every probe outcome. -/

def check_authentication_status (url : String)
    (loginFormPresent userMenuPresent : Bool) : Bool :=
  if pyContains url "proposals/view" || pyContains url "dashboard" then true
  else if pyContains url "/login/" then
    if loginFormPresent then false
    else if userMenuPresent then true
    else false
  else if userMenuPresent then true
  else false

/-! ### `run` and `cleanup` (src/main.py lines 464-519)

The per-step outcomes of `run` are an oracle record.  `bodyRaises` models an
unexpected exception anywhere in the `try` body, caught by the outer
handler (which calls `cleanup` and returns `None`).  The second component
of `run`'s result records whether `cleanup` was invoked on that exit path.
`cleanup` itself is embedded over whether a driver exists and whether
`driver.quit()` raises; the source logs and swallows the error. -/

/-- `self.driver.quit()`, which may raise. -/
def quitDriver (quitRaises : Bool) : Except String Unit :=
  if quitRaises then Except.error "quit failed" else Except.ok ()

/-- Lines 511-519: `cleanup` catches any error from `quit` and only logs it. -/
def cleanup (driverPresent quitRaises : Bool) : Except String Unit :=
  if driverPresent then
    match quitDriver quitRaises with
    | Except.error _ => Except.ok ()
    | Except.ok _ => Except.ok ()
  else Except.ok ()

structure RunSteps where
  setupOk : Bool
  navDirectOk : Bool
  loginOk : Bool
  navDocOk : Bool
  extracted : Option Raw
  bodyRaises : Bool
deriving DecidableEq

/-- Lines 464-509.  Result: (`return` value of `run`, whether `cleanup` ran
on that path).  `parse_with_openai` always returns a dictionary containing
the key `"Sent by"`, so the `if not parsed_data:` test of line 495 is its
dictionary-truthiness, modelled by presence of that key. -/
def run (s : RunSteps) (apiKey : Bool) (model : ModelOutcome) :
    Option PyDict × Bool :=
  if s.bodyRaises then (none, true)
  else if !s.setupOk then (none, false)
  else if !s.navDirectOk && !s.loginOk then (none, true)
  else if !s.navDirectOk && !s.navDocOk then (none, true)
  else
    match s.extracted with
    | none => (none, true)
    | some raw =>
      let parsed := (parse_with_openai apiKey model raw).1
      if parsed.sentBy?.isSome then (some parsed, true) else (none, true)

/-! ### `process_urls_from_sheet` (src/main.py lines 558-649)

A pandas DataFrame is a header (column names) plus rows of cell strings.
The two sheet readers are oracles: `read_google_sheet` either raises
(sending the source to `download_google_sheet`, itself an `Option`) or
returns an `Option Df` (it returns `None` on any internal error).  Each
loop iteration's interaction with the scraper is an oracle
`Nat → RowOutcome`: `scraper.run()` returned a truthy dictionary, returned
a falsy value, or the iteration body raised with a message. -/

structure Df where
  cols : List String
  rows : List (List String)
deriving DecidableEq

inductive RowOutcome
| success (d : PyDict)
| failure
| exception (msg : String)

inductive ReadOutcome
| raised
| returned (d : Option Df)

/-- Lines 575-586: the built-in sample DataFrame. -/
def sampleDf : Df :=
  ⟨["Company", "Document type", "Value", "Date Created", "Signed On", "Signed by"],
   [["BHA Strategy", "https://betterproposals.io/2/proposals/view?id=2366358",
     "$33,200.00", "18 Mar 2025", "08 May 2025", "Katy Sully"],
    ["Integrity Design", "https://betterproposals.io/2/proposals/view?id=2392944",
     "$41,920.00", "04 Apr 2025", "30 Apr 2025", "Brandon Earls"],
    ["Providence Diamond", "https://betterproposals.io/2/proposals/view?id=2423564",
     "$39,710.00", "29 Apr 2025", "30 Apr 2025", "Daniel Pritsker"]]⟩

/-- Lines 565-569: `df` after the try/except over the two read methods. -/
def effectiveSheet (r1 : ReadOutcome) (r2 : Option Df) : Option Df :=
  match r1 with
  | .raised => r2
  | .returned d => d

/-- Lines 571-586: substitute the sample data when nothing was read or the
table is empty. -/
def loadInput (r1 : ReadOutcome) (r2 : Option Df) : Df :=
  match effectiveSheet r1 r2 with
  | none => sampleDf
  | some df => if df.rows.length = 0 then sampleDf else df

def extractedColNames : List String :=
  ["Extracted Signed by", "Extracted Signed date", "Extracted IP address",
   "Extracted Sent by"]

/-- Lines 613-638: the four cells written for a processed row. -/
def rowCells : RowOutcome → List String
  | .success d =>
    [pyGet d.signedBy? "Not found", pyGet d.signedDate? "Not found",
     pyGet d.ipAddress? "Not found", pyGet d.sentBy? "Not found"]
  | .failure => ["Error", "Error", "Error", "Error"]
  | .exception msg => ["Error: " ++ msg, "Error", "Error", "Error"]

/-- The four extracted cells of row `i`: written by the loop when
`i < urls_to_process`, otherwise left at the initial `''` of lines 592-595. -/
def cellsFor (outcome : Nat → RowOutcome) (cap i : Nat) : List String :=
  if i < cap then rowCells (outcome i) else ["", "", "", ""]

/-- The rows of `results_df` after the loop, starting at row index `i`. -/
def augmentRows (outcome : Nat → RowOutcome) (cap : Nat) :
    Nat → List (List String) → List (List String)
  | _, [] => []
  | i, r :: rs => (r ++ cellsFor outcome cap i) :: augmentRows outcome cap (i + 1) rs

/-- Lines 558-645: the `results_df` returned (and written to CSV);
`cap = urls_to_process = min(max_urls, len(df))` (line 598). -/
def process_urls_from_sheet (r1 : ReadOutcome) (r2 : Option Df)
    (max_urls : Nat) (outcome : Nat → RowOutcome) : Df :=
  let df := loadInput r1 r2
  let cap := min max_urls df.rows.length
  ⟨df.cols ++ extractedColNames, augmentRows outcome cap 0 df.rows⟩

/-! ### Decomposition of `manual_extract` into independent field derivations -/

/-- Stand-alone derivation of the `"Signed by"` field. -/
def mSignedBy (raw : Raw) : String :=
  match certField raw.certificate_html "Accepted and Signed by" with
  | some v => pyStrip v
  | none => "Not found"

/-- Stand-alone derivation of the `"Signed date"` field. -/
def mSignedDate (raw : Raw) : String :=
  match certField raw.certificate_html "Accepted and Signed on" with
  | some v => pyStrip v
  | none => "Not found"

/-- Stand-alone derivation of the `"IP address"` field. -/
def mIp (raw : Raw) : String :=
  match certField raw.certificate_html "IP Address from signature location" with
  | some v => pyStrip v
  | none => "Not found"

/-- Effect of `step4` on the `"Sent by"` value alone. -/
def sent4 (raw : Raw) (s : String) : String :=
  if s = "Not found" ∧ raw.sent_by_blocks ≠ [] then
    match raw.sent_by_blocks.find? (fun b => pyContains b.text "Sent by") with
    | some b => pyStrip (pyReplace b.text "Sent by" "")
    | none => s
  else s

/-- Effect of `step5` on the `"Sent by"` value alone. -/
def sent5 (raw : Raw) (s : String) : String :=
  if s = "Not found" then
    match timelineSentBy raw.timeline_html with
    | some v => pyStrip v
    | none => s
  else s

/-- Stand-alone derivation of the `"Sent by"` field from the argument value. -/
def mSentBy (raw : Raw) (s : String) : String := sent5 raw (sent4 raw s)

/-! Per-step projection lemmas: which field each step writes and which it
leaves untouched. -/

lemma step1_sdate (raw : Raw) (r : Fields) : (step1 raw r).signed_date = r.signed_date := by
  unfold step1; repeat' split; all_goals rfl

lemma step1_ip (raw : Raw) (r : Fields) : (step1 raw r).ip_address = r.ip_address := by
  unfold step1; repeat' split; all_goals rfl

lemma step1_sent (raw : Raw) (r : Fields) : (step1 raw r).sent_by = r.sent_by := by
  unfold step1; repeat' split; all_goals rfl

lemma step2_sby (raw : Raw) (r : Fields) : (step2 raw r).signed_by = r.signed_by := by
  unfold step2; repeat' split; all_goals rfl

lemma step2_ip (raw : Raw) (r : Fields) : (step2 raw r).ip_address = r.ip_address := by
  unfold step2; repeat' split; all_goals rfl

lemma step2_sent (raw : Raw) (r : Fields) : (step2 raw r).sent_by = r.sent_by := by
  unfold step2; repeat' split; all_goals rfl

lemma step3_sby (raw : Raw) (r : Fields) : (step3 raw r).signed_by = r.signed_by := by
  unfold step3; repeat' split; all_goals rfl

lemma step3_sdate (raw : Raw) (r : Fields) : (step3 raw r).signed_date = r.signed_date := by
  unfold step3; repeat' split; all_goals rfl

lemma step3_sent (raw : Raw) (r : Fields) : (step3 raw r).sent_by = r.sent_by := by
  unfold step3; repeat' split; all_goals rfl

lemma step4_sby (raw : Raw) (r : Fields) : (step4 raw r).signed_by = r.signed_by := by
  unfold step4
  by_cases h : r.sent_by = "Not found" ∧ raw.sent_by_blocks ≠ []
  · rw [if_pos h]
    cases List.find? (fun b => pyContains b.text "Sent by") raw.sent_by_blocks <;> rfl
  · rw [if_neg h]

lemma step4_sdate (raw : Raw) (r : Fields) : (step4 raw r).signed_date = r.signed_date := by
  unfold step4
  by_cases h : r.sent_by = "Not found" ∧ raw.sent_by_blocks ≠ []
  · rw [if_pos h]
    cases List.find? (fun b => pyContains b.text "Sent by") raw.sent_by_blocks <;> rfl
  · rw [if_neg h]

lemma step4_ip (raw : Raw) (r : Fields) : (step4 raw r).ip_address = r.ip_address := by
  unfold step4
  by_cases h : r.sent_by = "Not found" ∧ raw.sent_by_blocks ≠ []
  · rw [if_pos h]
    cases List.find? (fun b => pyContains b.text "Sent by") raw.sent_by_blocks <;> rfl
  · rw [if_neg h]

lemma step5_sby (raw : Raw) (r : Fields) : (step5 raw r).signed_by = r.signed_by := by
  unfold step5
  by_cases h : r.sent_by = "Not found"
  · rw [if_pos h]; cases timelineSentBy raw.timeline_html <;> rfl
  · rw [if_neg h]

lemma step5_sdate (raw : Raw) (r : Fields) : (step5 raw r).signed_date = r.signed_date := by
  unfold step5
  by_cases h : r.sent_by = "Not found"
  · rw [if_pos h]; cases timelineSentBy raw.timeline_html <;> rfl
  · rw [if_neg h]

lemma step5_ip (raw : Raw) (r : Fields) : (step5 raw r).ip_address = r.ip_address := by
  unfold step5
  by_cases h : r.sent_by = "Not found"
  · rw [if_pos h]; cases timelineSentBy raw.timeline_html <;> rfl
  · rw [if_neg h]

lemma step1_sby_val (raw : Raw) (r : Fields) :
    (step1 raw r).signed_by =
      ((certField raw.certificate_html "Accepted and Signed by").map pyStrip).getD
        r.signed_by := by
  unfold step1; cases certField raw.certificate_html "Accepted and Signed by" <;> rfl

lemma step2_sdate_val (raw : Raw) (r : Fields) :
    (step2 raw r).signed_date =
      ((certField raw.certificate_html "Accepted and Signed on").map pyStrip).getD
        r.signed_date := by
  unfold step2; cases certField raw.certificate_html "Accepted and Signed on" <;> rfl

lemma step3_ip_val (raw : Raw) (r : Fields) :
    (step3 raw r).ip_address =
      ((certField raw.certificate_html "IP Address from signature location").map
        pyStrip).getD r.ip_address := by
  unfold step3
  cases certField raw.certificate_html "IP Address from signature location" <;> rfl

lemma step4_sent_val (raw : Raw) (r : Fields) :
    (step4 raw r).sent_by = sent4 raw r.sent_by := by
  unfold step4 sent4
  by_cases h : r.sent_by = "Not found" ∧ raw.sent_by_blocks ≠ []
  · rw [if_pos h, if_pos h]
    cases List.find? (fun b => pyContains b.text "Sent by") raw.sent_by_blocks <;> rfl
  · rw [if_neg h, if_neg h]

lemma step5_sent_val (raw : Raw) (r : Fields) :
    (step5 raw r).sent_by = sent5 raw r.sent_by := by
  unfold step5 sent5
  by_cases h : r.sent_by = "Not found"
  · rw [if_pos h, if_pos h]
    cases timelineSentBy raw.timeline_html <;> rfl
  · rw [if_neg h, if_neg h]

lemma mSignedBy_eq (raw : Raw) :
    mSignedBy raw =
      ((certField raw.certificate_html "Accepted and Signed by").map pyStrip).getD
        "Not found" := by
  unfold mSignedBy; cases certField raw.certificate_html "Accepted and Signed by" <;> rfl

lemma mSignedDate_eq (raw : Raw) :
    mSignedDate raw =
      ((certField raw.certificate_html "Accepted and Signed on").map pyStrip).getD
        "Not found" := by
  unfold mSignedDate; cases certField raw.certificate_html "Accepted and Signed on" <;> rfl

lemma mIp_eq (raw : Raw) :
    mIp raw =
      ((certField raw.certificate_html "IP Address from signature location").map
        pyStrip).getD "Not found" := by
  unfold mIp
  cases certField raw.certificate_html "IP Address from signature location" <;> rfl

lemma manual_sby (raw : Raw) (s : String) :
    (manual_extract raw s).signed_by = mSignedBy raw := by
  unfold manual_extract
  rw [step5_sby, step4_sby, step3_sby, step2_sby, step1_sby_val, mSignedBy_eq]

lemma manual_sdate (raw : Raw) (s : String) :
    (manual_extract raw s).signed_date = mSignedDate raw := by
  unfold manual_extract
  rw [step5_sdate, step4_sdate, step3_sdate, step2_sdate_val, step1_sdate, mSignedDate_eq]

lemma manual_ip (raw : Raw) (s : String) :
    (manual_extract raw s).ip_address = mIp raw := by
  unfold manual_extract
  rw [step5_ip, step4_ip, step3_ip_val, step2_ip, step1_ip, mIp_eq]

lemma manual_sent (raw : Raw) (s : String) :
    (manual_extract raw s).sent_by = mSentBy raw s := by
  unfold manual_extract mSentBy
  rw [step5_sent_val, step4_sent_val, step3_sent, step2_sent, step1_sent]

/-- `manual_extract` computes the four fields independently: each field of
the result is a function of the certificate fragment (respectively, of the
blocks/timeline and the incoming `sent_by`) alone. -/
theorem manual_extract_eq (raw : Raw) (s : String) :
    manual_extract raw s = ⟨mSignedBy raw, mSignedDate raw, mIp raw, mSentBy raw s⟩ := by
  have h1 := manual_sby raw s
  have h2 := manual_sdate raw s
  have h3 := manual_ip raw s
  have h4 := manual_sent raw s
  cases hm : manual_extract raw s
  rw [hm] at h1 h2 h3 h4
  simp only at h1 h2 h3 h4
  rw [h1, h2, h3, h4]

/-- If the label phrase does not occur, the labelled search cannot match. -/
theorem searchLMN_eq_none (s L M N : String) (h : pyContains s L = false) :
    searchLMN s L M N = none := by
  unfold searchLMN
  unfold pyContains at h
  cases hf : findSuffix L.data s.data with
  | none => simp
  | some i => rw [hf] at h; simp at h

/-- The `"label" in certificate_html` guard is redundant: when it fails the
search fails too, so each certificate field is exactly the (trimmed) result
of the labelled search. -/
theorem certField_eq (html label : String) :
    certField html label = searchLMN html label certValueDiv divClose := by
  unfold certField
  by_cases h : pyContains html label = true
  · simp [h]
  · simp only [Bool.not_eq_true] at h
    simp [h, searchLMN_eq_none html label _ _ h]

/-- Concrete certificate fragment of the spec's first example (also lacks
the IP label, covering the second example). -/
def c2cert : String :=
  "<div class=\"certificate-label\">Accepted and Signed by</div><div class=\"certificate-value\">Jane Doe</div>"

set_option maxRecDepth 10000 in
/-- C2: `manual_extract` derives each of the three certificate fields by
searching for its fixed label phrase followed (non-greedy, DOTALL) by a
`certificate-value` div, returning the first captured group trimmed; a
fragment containing `Accepted and Signed by` followed eventually by
`<div class="certificate-value">Jane Doe</div>` yields Signed by
`"Jane Doe"`, and a fragment with no
`IP Address from signature location` label yields IP address `"Not found"`. -/
theorem C2_certificate_fields :
    (∀ (raw : Raw) (s : String),
      (manual_extract raw s).signed_by =
        ((searchLMN raw.certificate_html "Accepted and Signed by"
            certValueDiv divClose).map pyStrip).getD "Not found" ∧
      (manual_extract raw s).signed_date =
        ((searchLMN raw.certificate_html "Accepted and Signed on"
            certValueDiv divClose).map pyStrip).getD "Not found" ∧
      (manual_extract raw s).ip_address =
        ((searchLMN raw.certificate_html "IP Address from signature location"
            certValueDiv divClose).map pyStrip).getD "Not found") ∧
    (manual_extract ⟨c2cert, "", []⟩ "Not found").signed_by = "Jane Doe" ∧
    (manual_extract ⟨c2cert, "", []⟩ "Not found").ip_address = "Not found" := by
  refine ⟨fun raw s => ?_, by decide, by decide⟩
  rw [manual_extract_eq]
  refine ⟨?_, ?_, ?_⟩ <;>
    simp only [mSignedBy, mSignedDate, mIp, certField_eq] <;>
    (cases h : searchLMN raw.certificate_html _ certValueDiv divClose <;> simp [h])

/-- C8: for every raw-extraction input carrying the three keys (the fields
of `Raw`), `manual_extract` is total — the Lean embedding is a total
function, mirroring that every individual `re.search` sits in its own
`try/except` in the source — each field's derivation is an independent
function of its own inputs (so a failing pattern for one field cannot
affect the others), and the result carries all four keys with string
values. -/
theorem C8_manual_extract_total (raw : Raw) (s : String) :
    manual_extract raw s = ⟨mSignedBy raw, mSignedDate raw, mIp raw, mSentBy raw s⟩ ∧
    (manual_extract raw s).toDict.signedBy?.isSome = true ∧
    (manual_extract raw s).toDict.signedDate?.isSome = true ∧
    (manual_extract raw s).toDict.ipAddress?.isSome = true ∧
    (manual_extract raw s).toDict.sentBy?.isSome = true :=
  ⟨manual_extract_eq raw s, rfl, rfl, rfl, rfl⟩

/-! ### C1: the final "Sent by" field -/

/-- The value the claim asserts for the final "Sent by" field, following the
spec's words: the first candidate block's title text with the literal
`"Sent by"` marker removed and surrounding whitespace stripped (`"Not
found"` when there is no candidate). -/
def claimSentBy (raw : Raw) : String :=
  match raw.sent_by_blocks with
  | [] => "Not found"
  | b :: _ => pyStrip (pyReplace b.text "Sent by" "")

/-- A well-formed raw extraction: per `extract_certificate_info`
(lines 277-281), every stored block's title text contains `"Sent by"`. -/
def WfRaw (raw : Raw) : Prop :=
  ∀ b ∈ raw.sent_by_blocks, pyContains b.text "Sent by" = true

instance (raw : Raw) : Decidable (WfRaw raw) := by
  unfold WfRaw; infer_instance

lemma deriveSentBy_eq_claim (raw : Raw) (hwf : WfRaw raw)
    (hne : raw.sent_by_blocks ≠ []) :
    deriveSentBy raw.sent_by_blocks = claimSentBy raw := by
  unfold deriveSentBy claimSentBy
  cases hb : raw.sent_by_blocks with
  | nil => exact absurd hb hne
  | cons b t =>
    have hmem : b ∈ raw.sent_by_blocks := by rw [hb]; exact List.mem_cons_self b t
    have hc : pyContains b.text "Sent by" = true := hwf b hmem
    simp [List.find?, hc]

/-- A raw extraction on which the claim fails: the first (only) candidate's
title is `"Sent by Not found"`, whose derived value is the sentinel
`"Not found"` itself, which re-opens the timeline-regex recovery of
`manual_extract` (lines 451-460) and yields `"Alice"` instead. -/
def c1raw : Raw :=
  ⟨"", "<div class=\"timeline-title\">Sent by Alice</div>",
   [⟨"", "Sent by Not found"⟩]⟩

set_option maxRecDepth 10000 in
/-- C1 counterexample: `c1raw` is a well-formed raw extraction with a
non-empty candidate list, yet on the no-API-key path the final `"Sent by"`
field is `"Alice"`, not the first candidate's marker-stripped title text
`"Not found"` — the claim fails as stated. -/
theorem C1_counterexample :
    WfRaw c1raw ∧ c1raw.sent_by_blocks ≠ [] ∧
    claimSentBy c1raw = "Not found" ∧
    (parse_with_openai false ModelOutcome.apiError c1raw).1.sentBy? = some "Alice" ∧
    ("Alice" : String) ≠ "Not found" := by decide

/-- C1 (amended): for every well-formed raw-extraction input whose
candidate list is non-empty, **provided the derived value is not the
literal sentinel `"Not found"`**, the final "Sent by" field equals the
first candidate's title text with the `"Sent by"` marker removed and
surrounding whitespace stripped, on every path: model-tier success
(`.parsed`), model-tier failure falling back to `manual_extract`
(`.apiError`, `.badJson`), and the no-API-key path (`apiKey = false`). -/
theorem C1_sent_by_amended (raw : Raw) (hwf : WfRaw raw)
    (hnf : claimSentBy raw ≠ "Not found")
    (apiKey : Bool) (model : ModelOutcome) :
    (parse_with_openai apiKey model raw).1.sentBy? = some (claimSentBy raw) := by
  have hne : raw.sent_by_blocks ≠ [] := by
    intro h
    apply hnf
    unfold claimSentBy
    rw [h]
  have hd : deriveSentBy raw.sent_by_blocks = claimSentBy raw :=
    deriveSentBy_eq_claim raw hwf hne
  have hmanual : ∀ d : String, d ≠ "Not found" →
      (manual_extract raw d).sent_by = d := by
    intro d hdnf
    have h4 : sent4 raw d = d := by
      unfold sent4
      rw [if_neg]
      intro hcon
      exact hdnf hcon.1
    rw [manual_sent]
    unfold mSentBy
    rw [h4]
    unfold sent5
    rw [if_neg hdnf]
  have htd : (manual_extract raw (claimSentBy raw)).toDict.sentBy? =
      some (claimSentBy raw) := by
    unfold Fields.toDict
    rw [hmanual _ hnf]
  unfold parse_with_openai
  rw [hd]
  cases apiKey with
  | false => simpa [Fields.toDict] using htd
  | true =>
    cases model with
    | apiError => simpa [Fields.toDict] using htd
    | badJson => simpa [Fields.toDict] using htd
    | parsed d => simp

/-- Concrete input for the C1 witness. -/
def c1wraw : Raw := ⟨"", "", [⟨"", "Sent by John"⟩]⟩

set_option maxRecDepth 10000 in
/-- C1 witness: the amended theorem applied at a concrete input. -/
theorem C1_sent_by_witness :
    (parse_with_openai false ModelOutcome.apiError c1wraw).1.sentBy? =
      some (claimSentBy c1wraw) :=
  C1_sent_by_amended c1wraw (by decide) (by decide) false ModelOutcome.apiError

/-- C5: when the API key is absent, `parse_with_openai` performs no network
call (the recorded call flag is `false`, and the result does not depend on
the model oracle) and returns exactly the four-key dictionary produced by
`manual_extract` on the directly derived `sent_by`. -/
theorem C5_no_key_no_network (raw : Raw) (model : ModelOutcome) :
    (parse_with_openai false model raw).2 = false ∧
    (parse_with_openai false model raw).1 =
      (manual_extract raw (deriveSentBy raw.sent_by_blocks)).toDict ∧
    (parse_with_openai false model raw).1 =
      (parse_with_openai false ModelOutcome.apiError raw).1 := by
  refine ⟨rfl, rfl, rfl⟩

/-- C6: `check_authentication_status` implements the ordered
first-match-wins policy — a URL containing `"proposals/view"` or
`"dashboard"` yields `true` for every probe outcome (no DOM probe is
consulted); otherwise a URL containing `"/login/"` yields `false` when the
login form is present, `true` when it is absent and the user menu is
present, and `false` otherwise; any other URL yields `true` iff the user
menu is present. -/
theorem C6_auth_policy (url : String) (loginFormPresent userMenuPresent : Bool) :
    ((pyContains url "proposals/view" = true ∨ pyContains url "dashboard" = true) →
      check_authentication_status url loginFormPresent userMenuPresent = true) ∧
    (pyContains url "proposals/view" = false → pyContains url "dashboard" = false →
      pyContains url "/login/" = true →
      check_authentication_status url loginFormPresent userMenuPresent =
        (!loginFormPresent && userMenuPresent)) ∧
    (pyContains url "proposals/view" = false → pyContains url "dashboard" = false →
      pyContains url "/login/" = false →
      check_authentication_status url loginFormPresent userMenuPresent =
        userMenuPresent) := by
  unfold check_authentication_status
  refine ⟨?_, ?_, ?_⟩
  · intro h
    rcases h with h | h <;> simp [h]
  · intro h1 h2 h3
    rw [h1, h2, h3]
    cases loginFormPresent <;> cases userMenuPresent <;> simp
  · intro h1 h2 h3
    rw [h1, h2, h3]
    cases userMenuPresent <;> simp

/-- C6 witness: on a login URL with the form present the result is `false`,
via the theorem at a concrete input. -/
theorem C6_auth_witness :
    check_authentication_status "https://betterproposals.io/2/login/" true true = false := by
  have h := (C6_auth_policy "https://betterproposals.io/2/login/" true true).2.1
    (by decide) (by decide) (by decide)
  simpa using h

/-! ### C7: teardown discipline of `run` -/

/-- C7 counterexample: on the driver-setup-failure exit path (line 468-470
returns `None` directly), `run` returns without invoking `cleanup` — the
claim's "every exit path" fails on this branch. -/
theorem C7_counterexample :
    (run ⟨false, false, false, false, none, false⟩ false ModelOutcome.apiError).2
      = false := rfl

/-- C7 (amended): on every exit path of `run` **except the driver-setup
failure return** — i.e. whenever driver setup succeeded or the body raised —
`cleanup` is invoked before `run` returns; and `cleanup` never propagates a
teardown error (it returns normally even when `driver.quit()` raises). -/
theorem C7_cleanup_amended (s : RunSteps) (apiKey : Bool) (model : ModelOutcome)
    (h : s.setupOk = true ∨ s.bodyRaises = true) :
    (run s apiKey model).2 = true ∧
    ∀ driverPresent quitRaises : Bool,
      cleanup driverPresent quitRaises = Except.ok () := by
  constructor
  · unfold run
    rcases h with h | h
    · rw [h]
      by_cases hb : s.bodyRaises = true
      · rw [hb]; rfl
      · simp only [Bool.not_eq_true] at hb
        rw [hb]
        simp only [Bool.not_true, Bool.false_eq_true, if_false, if_true]
        repeat' split
        all_goals rfl
    · rw [h]; rfl
  · intro dp q
    cases dp <;> cases q <;> rfl

/-- C7 witness: a concrete run whose body raises still tears down. -/
theorem C7_cleanup_witness :
    (run ⟨true, true, true, true, none, true⟩ false ModelOutcome.apiError).2 = true ∧
    ∀ driverPresent quitRaises : Bool,
      cleanup driverPresent quitRaises = Except.ok () :=
  C7_cleanup_amended ⟨true, true, true, true, none, true⟩ false ModelOutcome.apiError
    (Or.inl rfl)

/-! ### C3, C4, C9, C10: the batch orchestrator -/

lemma augmentRows_length (outcome : Nat → RowOutcome) (cap : Nat) :
    ∀ (i : Nat) (rs : List (List String)),
      (augmentRows outcome cap i rs).length = rs.length := by
  intro i rs
  induction rs generalizing i with
  | nil => rfl
  | cons r t ih => simp [augmentRows, ih]

lemma augmentRows_getD (outcome : Nat → RowOutcome) (cap : Nat) :
    ∀ (rs : List (List String)) (i j : Nat), j < rs.length →
      (augmentRows outcome cap i rs).getD j [] =
        rs.getD j [] ++ cellsFor outcome cap (i + j) := by
  intro rs
  induction rs with
  | nil => intro i j h; exact absurd h (by simp)
  | cons r t ih =>
    intro i j h
    cases j with
    | zero => simp [augmentRows]
    | succ j =>
      have hj : j < t.length := by simpa using h
      have := ih (i + 1) j hj
      simp only [augmentRows, List.getD_cons_succ]
      rw [this]
      congr 2
      omega

/-- C3: the output table of `process_urls_from_sheet` has exactly one row
per input row, in the same order, with all original-column values unchanged
and exactly the four extraction columns appended, for every read outcome,
row cap and per-row outcome (in particular regardless of per-row failure). -/
theorem C3_identity_preserving (r1 : ReadOutcome) (r2 : Option Df)
    (max_urls : Nat) (outcome : Nat → RowOutcome) :
    (process_urls_from_sheet r1 r2 max_urls outcome).rows.length =
      (loadInput r1 r2).rows.length ∧
    (process_urls_from_sheet r1 r2 max_urls outcome).cols =
      (loadInput r1 r2).cols ++ extractedColNames ∧
    ∀ i, i < (loadInput r1 r2).rows.length →
      ∃ cells, cells.length = 4 ∧
        (process_urls_from_sheet r1 r2 max_urls outcome).rows.getD i [] =
          (loadInput r1 r2).rows.getD i [] ++ cells := by
  refine ⟨augmentRows_length _ _ _ _, rfl, ?_⟩
  intro i hi
  refine ⟨cellsFor outcome (min max_urls (loadInput r1 r2).rows.length) i, ?_, ?_⟩
  · unfold cellsFor
    split
    · cases outcome i <;> rfl
    · rfl
  · have := augmentRows_getD outcome (min max_urls (loadInput r1 r2).rows.length)
      (loadInput r1 r2).rows 0 i hi
    simpa [process_urls_from_sheet] using this

/-- Concrete two-row input table used by the witnesses below. -/
def testDf : Df :=
  ⟨["Company", "Document type"],
   [["Acme", "https://betterproposals.io/2/proposals/view?id=1"],
    ["Globex", "https://betterproposals.io/2/proposals/view?id=2"]]⟩

/-- C3 witness: the per-row part of the theorem at a concrete input. -/
theorem C3_identity_witness :
    ∃ cells, cells.length = 4 ∧
      (process_urls_from_sheet (ReadOutcome.returned (some testDf)) none 10
          (fun _ => RowOutcome.failure)).rows.getD 0 [] =
        (loadInput (ReadOutcome.returned (some testDf)) none).rows.getD 0 [] ++ cells :=
  (C3_identity_preserving (ReadOutcome.returned (some testDf)) none 10
    (fun _ => RowOutcome.failure)).2.2 0 (by decide)

/-- C4: a row whose pipeline fails gets the `"Error"` sentinels — all four
extracted cells are `"Error"` when `scraper.run()` returned a falsy result,
and `"Error: <msg>"` in the first cell (plain `"Error"` in the rest) when
the iteration raised — and rows other than the failing one are unaffected:
changing the outcome of row `i` alone never changes any other output row. -/
theorem C4_error_sentinels (r1 : ReadOutcome) (r2 : Option Df)
    (max_urls : Nat) (outcome : Nat → RowOutcome) (i : Nat)
    (hi : i < min max_urls (loadInput r1 r2).rows.length) :
    (outcome i = RowOutcome.failure →
      (process_urls_from_sheet r1 r2 max_urls outcome).rows.getD i [] =
        (loadInput r1 r2).rows.getD i [] ++ ["Error", "Error", "Error", "Error"]) ∧
    (∀ msg, outcome i = RowOutcome.exception msg →
      (process_urls_from_sheet r1 r2 max_urls outcome).rows.getD i [] =
        (loadInput r1 r2).rows.getD i [] ++
          ["Error: " ++ msg, "Error", "Error", "Error"]) ∧
    (∀ outcome' : Nat → RowOutcome, (∀ j, j ≠ i → outcome' j = outcome j) →
      ∀ j, j ≠ i →
        (process_urls_from_sheet r1 r2 max_urls outcome').rows.getD j [] =
          (process_urls_from_sheet r1 r2 max_urls outcome).rows.getD j []) := by
  have hil : i < (loadInput r1 r2).rows.length := lt_of_lt_of_le hi (min_le_right _ _)
  have hrow := augmentRows_getD outcome (min max_urls (loadInput r1 r2).rows.length)
    (loadInput r1 r2).rows 0 i hil
  refine ⟨?_, ?_, ?_⟩
  · intro hf
    simp only [process_urls_from_sheet]
    rw [hrow]
    unfold cellsFor
    rw [if_pos (by simpa using hi)]
    simp only [Nat.zero_add]
    rw [hf]
    rfl
  · intro msg hf
    simp only [process_urls_from_sheet]
    rw [hrow]
    unfold cellsFor
    rw [if_pos (by simpa using hi)]
    simp only [Nat.zero_add]
    rw [hf]
    rfl
  · intro outcome' hagree j hj
    by_cases hjl : j < (loadInput r1 r2).rows.length
    · have h1 := augmentRows_getD outcome' (min max_urls (loadInput r1 r2).rows.length)
        (loadInput r1 r2).rows 0 j hjl
      have h2 := augmentRows_getD outcome (min max_urls (loadInput r1 r2).rows.length)
        (loadInput r1 r2).rows 0 j hjl
      simp only [process_urls_from_sheet]
      rw [h1, h2]
      unfold cellsFor
      simp only [Nat.zero_add]
      rw [hagree j hj]
    · have hl1 : (process_urls_from_sheet r1 r2 max_urls outcome').rows.length ≤ j := by
        simp only [process_urls_from_sheet]
        rw [augmentRows_length]
        omega
      have hl2 : (process_urls_from_sheet r1 r2 max_urls outcome).rows.length ≤ j := by
        simp only [process_urls_from_sheet]
        rw [augmentRows_length]
        omega
      rw [List.getD_eq_default _ _ hl1, List.getD_eq_default _ _ hl2]

/-- C4 witness: the failure conjunct of the theorem at a concrete input. -/
theorem C4_error_witness :
    (process_urls_from_sheet (ReadOutcome.returned (some testDf)) none 10
        (fun _ => RowOutcome.failure)).rows.getD 0 [] =
      (loadInput (ReadOutcome.returned (some testDf)) none).rows.getD 0 [] ++
        ["Error", "Error", "Error", "Error"] :=
  (C4_error_sentinels (ReadOutcome.returned (some testDf)) none 10
    (fun _ => RowOutcome.failure) 0 (by decide)).1 rfl

/-- C9: when the sheet reads produce nothing (both methods failed, or the
table read was empty), the orchestrator substitutes the built-in 3-row
sample table with exactly the documented columns, and the batch proceeds
over that sample: the output still has one row per sample row. -/
theorem C9_sample_fallback (r1 : ReadOutcome) (r2 : Option Df)
    (max_urls : Nat) (outcome : Nat → RowOutcome)
    (h : effectiveSheet r1 r2 = none ∨
      ∃ d, effectiveSheet r1 r2 = some d ∧ d.rows.length = 0) :
    loadInput r1 r2 = sampleDf ∧
    sampleDf.cols =
      ["Company", "Document type", "Value", "Date Created", "Signed On", "Signed by"] ∧
    sampleDf.rows.length = 3 ∧
    (process_urls_from_sheet r1 r2 max_urls outcome).rows.length = 3 := by
  have hload : loadInput r1 r2 = sampleDf := by
    unfold loadInput
    rcases h with h | ⟨d, hd, hlen⟩
    · rw [h]
    · rw [hd]
      simp [hlen]
  refine ⟨hload, rfl, rfl, ?_⟩
  simp only [process_urls_from_sheet]
  rw [augmentRows_length, hload]
  rfl

/-- C9 witness: both read methods failing yields the sample and 3 rows. -/
theorem C9_sample_witness :
    loadInput ReadOutcome.raised none = sampleDf ∧
    sampleDf.cols =
      ["Company", "Document type", "Value", "Date Created", "Signed On", "Signed by"] ∧
    sampleDf.rows.length = 3 ∧
    (process_urls_from_sheet ReadOutcome.raised none 10
        (fun _ => RowOutcome.failure)).rows.length = 3 :=
  C9_sample_fallback ReadOutcome.raised none 10 (fun _ => RowOutcome.failure)
    (Or.inl rfl)

/-- C10: rows at or beyond the `min(max_urls, row count)` cap are emitted
(not omitted: the output row count equals the input row count) with their
original-column values unchanged and all four extracted cells equal to the
empty string. -/
theorem C10_rows_beyond_cap (r1 : ReadOutcome) (r2 : Option Df)
    (max_urls : Nat) (outcome : Nat → RowOutcome) (i : Nat)
    (hcap : min max_urls (loadInput r1 r2).rows.length ≤ i)
    (hlen : i < (loadInput r1 r2).rows.length) :
    (process_urls_from_sheet r1 r2 max_urls outcome).rows.length =
      (loadInput r1 r2).rows.length ∧
    (process_urls_from_sheet r1 r2 max_urls outcome).rows.getD i [] =
      (loadInput r1 r2).rows.getD i [] ++ ["", "", "", ""] := by
  refine ⟨augmentRows_length _ _ _ _, ?_⟩
  have hrow := augmentRows_getD outcome (min max_urls (loadInput r1 r2).rows.length)
    (loadInput r1 r2).rows 0 i hlen
  simp only [process_urls_from_sheet]
  rw [hrow]
  unfold cellsFor
  rw [if_neg (by omega)]

/-- C10 witness: with a 2-row table and a cap of 1, row 1 is emitted with
empty extracted cells, via the theorem at a concrete input. -/
theorem C10_rows_witness :
    (process_urls_from_sheet (ReadOutcome.returned (some testDf)) none 1
        (fun _ => RowOutcome.failure)).rows.length =
      (loadInput (ReadOutcome.returned (some testDf)) none).rows.length ∧
    (process_urls_from_sheet (ReadOutcome.returned (some testDf)) none 1
        (fun _ => RowOutcome.failure)).rows.getD 1 [] =
      (loadInput (ReadOutcome.returned (some testDf)) none).rows.getD 1 [] ++
        ["", "", "", ""] :=
  C10_rows_beyond_cap (ReadOutcome.returned (some testDf)) none 1
    (fun _ => RowOutcome.failure) 1 (by decide) (by decide)

end BetterProposals
